import Mathlib

/- Shallow embedding of the SAGE binary-catalog reader and comparator of
   src/tests/sagediff.py, together with the empty-file size check of
   output/sage-plot/sage-plot.py.  Machine int32/int64 values are modelled
   as Int (with a comment wherever the 32-bit wrap is elided), float32
   values as Rat, numpy file reads as consumption of a list, and Python
   exceptions as the error side of Except. -/

set_option autoImplicit false

/-- Python exceptions arising in sagediff.py: ValueError is raised
explicitly by the script, IndexError by numpy scalar indexing of an empty
array and by str.format with a placeholder index past the argument tuple,
TypeError by subscripting None. -/
inductive PyErr where
  | valueError : String → PyErr
  | indexError : String → PyErr
  | typeError : String → PyErr
deriving DecidableEq, Repr

/-- np.allclose default relative tolerance rtol = 1e-05. -/
def npRtol : ℚ := 1 / 100000

/-- np.allclose default absolute tolerance atol = 1e-08. -/
def npAtol : ℚ := 1 / 100000000

/-- numpy absolute value. -/
def npAbs (q : ℚ) : ℚ := if q < 0 then -q else q

/-- One scalar of np.allclose with default tolerances:
absolute(a - b) <= (atol + rtol * absolute(b)). -/
def npIsClose (a b : ℚ) : Bool :=
  decide (npAbs (a - b) ≤ npAtol + npRtol * npAbs b)

/-- The 47 field names of the galaxy dtype (Galdesc_full in
sageResults.init), in declaration order. -/
inductive FieldName where
  | SnapNum | «Type» | GalaxyIndex | CentralGalaxyIndex | SAGEHaloIndex
  | SAGETreeIndex | SimulationHaloIndex | mergeType | mergeIntoID
  | mergeIntoSnapNum | dT | Pos | Vel | Spin | Len | Mvir | CentralMvir
  | Rvir | Vvir | Vmax | VelDisp | ColdGas | StellarMass | BulgeMass
  | HotGas | EjectedMass | BlackHoleMass | IntraClusterStars
  | MetalsColdGas | MetalsStellarMass | MetalsBulgeMass | MetalsHotGas
  | MetalsEjectedMass | MetalsIntraClusterStars | SfrDisk | SfrBulge
  | SfrDiskZ | SfrBulgeZ | DiskRadius | Cooling | Heating
  | QuasarModeBHaccretionMass | TimeOfLastMajorMerger
  | TimeOfLastMinorMerger | OutflowRate | infallMvir | infallVvir
  | infallVmax
deriving DecidableEq, Repr

/-- dtype.names: the field names in dtype declaration order. -/
def dtypeNames : List FieldName :=
  [.SnapNum, .«Type», .GalaxyIndex, .CentralGalaxyIndex, .SAGEHaloIndex,
   .SAGETreeIndex, .SimulationHaloIndex, .mergeType, .mergeIntoID,
   .mergeIntoSnapNum, .dT, .Pos, .Vel, .Spin, .Len, .Mvir, .CentralMvir,
   .Rvir, .Vvir, .Vmax, .VelDisp, .ColdGas, .StellarMass, .BulgeMass,
   .HotGas, .EjectedMass, .BlackHoleMass, .IntraClusterStars,
   .MetalsColdGas, .MetalsStellarMass, .MetalsBulgeMass, .MetalsHotGas,
   .MetalsEjectedMass, .MetalsIntraClusterStars, .SfrDisk, .SfrBulge,
   .SfrDiskZ, .SfrBulgeZ, .DiskRadius, .Cooling, .Heating,
   .QuasarModeBHaccretionMass, .TimeOfLastMajorMerger,
   .TimeOfLastMinorMerger, .OutflowRate, .infallMvir, .infallVvir,
   .infallVmax]

/-- The numpy scalar/subarray type of a dtype field: np.int32, np.int64,
np.float32, or the 3-element float32 subarray (np.float32, 3). -/
inductive NpType where
  | i32
  | i64
  | f32
  | f32x3
deriving DecidableEq, Repr

/-- Byte width of a field of the given numpy type. -/
def npTypeSize : NpType → Nat
  | .i32 => 4
  | .i64 => 8
  | .f32 => 4
  | .f32x3 => 12

/-- Alignment requirement of a field of the given numpy type under
align=True (a subarray aligns like its base scalar). -/
def npTypeAlign : NpType → Nat
  | .i32 => 4
  | .i64 => 8
  | .f32 => 4
  | .f32x3 => 4

/-- The numpy type of each field, from Galdesc_full. -/
def fieldType : FieldName → NpType
  | .SnapNum => .i32
  | .«Type» => .i32
  | .GalaxyIndex => .i64
  | .CentralGalaxyIndex => .i64
  | .SAGEHaloIndex => .i32
  | .SAGETreeIndex => .i32
  | .SimulationHaloIndex => .i64
  | .mergeType => .i32
  | .mergeIntoID => .i32
  | .mergeIntoSnapNum => .i32
  | .dT => .f32
  | .Pos => .f32x3
  | .Vel => .f32x3
  | .Spin => .f32x3
  | .Len => .i32
  | .Mvir => .f32
  | .CentralMvir => .f32
  | .Rvir => .f32
  | .Vvir => .f32
  | .Vmax => .f32
  | .VelDisp => .f32
  | .ColdGas => .f32
  | .StellarMass => .f32
  | .BulgeMass => .f32
  | .HotGas => .f32
  | .EjectedMass => .f32
  | .BlackHoleMass => .f32
  | .IntraClusterStars => .f32
  | .MetalsColdGas => .f32
  | .MetalsStellarMass => .f32
  | .MetalsBulgeMass => .f32
  | .MetalsHotGas => .f32
  | .MetalsEjectedMass => .f32
  | .MetalsIntraClusterStars => .f32
  | .SfrDisk => .f32
  | .SfrBulge => .f32
  | .SfrDiskZ => .f32
  | .SfrBulgeZ => .f32
  | .DiskRadius => .f32
  | .Cooling => .f32
  | .Heating => .f32
  | .QuasarModeBHaccretionMass => .f32
  | .TimeOfLastMajorMerger => .f32
  | .TimeOfLastMinorMerger => .f32
  | .OutflowRate => .f32
  | .infallMvir => .f32
  | .infallVvir => .f32
  | .infallVmax => .f32

/-- Round an offset up to a multiple of the given alignment. -/
def alignUp (off a : Nat) : Nat := ((off + a - 1) / a) * a

/-- End offset of the packed-with-alignment field sequence: each field is
placed at its alignment boundary, C-struct style (np.dtype align=True). -/
def galdescEnd : Nat :=
  dtypeNames.foldl
    (fun off f => alignUp off (npTypeAlign (fieldType f)) + npTypeSize (fieldType f)) 0

/-- The largest field alignment of the dtype (the whole struct is padded
to a multiple of it). -/
def galdescAlign : Nat :=
  dtypeNames.foldl (fun m f => max m (npTypeAlign (fieldType f))) 1

/-- dtype.itemsize of the aligned galaxy dtype: the record size in bytes. -/
def itemsize : Nat := alignUp galdescEnd galdescAlign

/-- One decoded galaxy record: int32/int64 fields as Int, float32 fields
as Rat, the three float32 3-vectors as triples. -/
structure GalaxyRecord where
  SnapNum : Int
  «Type» : Int
  GalaxyIndex : Int
  CentralGalaxyIndex : Int
  SAGEHaloIndex : Int
  SAGETreeIndex : Int
  SimulationHaloIndex : Int
  mergeType : Int
  mergeIntoID : Int
  mergeIntoSnapNum : Int
  dT : ℚ
  Pos : ℚ × ℚ × ℚ
  Vel : ℚ × ℚ × ℚ
  Spin : ℚ × ℚ × ℚ
  Len : Int
  Mvir : ℚ
  CentralMvir : ℚ
  Rvir : ℚ
  Vvir : ℚ
  Vmax : ℚ
  VelDisp : ℚ
  ColdGas : ℚ
  StellarMass : ℚ
  BulgeMass : ℚ
  HotGas : ℚ
  EjectedMass : ℚ
  BlackHoleMass : ℚ
  IntraClusterStars : ℚ
  MetalsColdGas : ℚ
  MetalsStellarMass : ℚ
  MetalsBulgeMass : ℚ
  MetalsHotGas : ℚ
  MetalsEjectedMass : ℚ
  MetalsIntraClusterStars : ℚ
  SfrDisk : ℚ
  SfrBulge : ℚ
  SfrDiskZ : ℚ
  SfrBulgeZ : ℚ
  DiskRadius : ℚ
  Cooling : ℚ
  Heating : ℚ
  QuasarModeBHaccretionMass : ℚ
  TimeOfLastMajorMerger : ℚ
  TimeOfLastMinorMerger : ℚ
  OutflowRate : ℚ
  infallMvir : ℚ
  infallVvir : ℚ
  infallVmax : ℚ

/-- A field value as extracted by record[fieldname]: an integer scalar, a
float scalar, or a float 3-vector. -/
inductive FVal where
  | i : Int → FVal
  | f : ℚ → FVal
  | v3 : ℚ × ℚ × ℚ → FVal

/-- Dynamic field access t[fld] on one record. -/
def getField (r : GalaxyRecord) : FieldName → FVal
  | .SnapNum => .i r.SnapNum
  | .«Type» => .i r.«Type»
  | .GalaxyIndex => .i r.GalaxyIndex
  | .CentralGalaxyIndex => .i r.CentralGalaxyIndex
  | .SAGEHaloIndex => .i r.SAGEHaloIndex
  | .SAGETreeIndex => .i r.SAGETreeIndex
  | .SimulationHaloIndex => .i r.SimulationHaloIndex
  | .mergeType => .i r.mergeType
  | .mergeIntoID => .i r.mergeIntoID
  | .mergeIntoSnapNum => .i r.mergeIntoSnapNum
  | .dT => .f r.dT
  | .Pos => .v3 r.Pos
  | .Vel => .v3 r.Vel
  | .Spin => .v3 r.Spin
  | .Len => .i r.Len
  | .Mvir => .f r.Mvir
  | .CentralMvir => .f r.CentralMvir
  | .Rvir => .f r.Rvir
  | .Vvir => .f r.Vvir
  | .Vmax => .f r.Vmax
  | .VelDisp => .f r.VelDisp
  | .ColdGas => .f r.ColdGas
  | .StellarMass => .f r.StellarMass
  | .BulgeMass => .f r.BulgeMass
  | .HotGas => .f r.HotGas
  | .EjectedMass => .f r.EjectedMass
  | .BlackHoleMass => .f r.BlackHoleMass
  | .IntraClusterStars => .f r.IntraClusterStars
  | .MetalsColdGas => .f r.MetalsColdGas
  | .MetalsStellarMass => .f r.MetalsStellarMass
  | .MetalsBulgeMass => .f r.MetalsBulgeMass
  | .MetalsHotGas => .f r.MetalsHotGas
  | .MetalsEjectedMass => .f r.MetalsEjectedMass
  | .MetalsIntraClusterStars => .f r.MetalsIntraClusterStars
  | .SfrDisk => .f r.SfrDisk
  | .SfrBulge => .f r.SfrBulge
  | .SfrDiskZ => .f r.SfrDiskZ
  | .SfrBulgeZ => .f r.SfrBulgeZ
  | .DiskRadius => .f r.DiskRadius
  | .Cooling => .f r.Cooling
  | .Heating => .f r.Heating
  | .QuasarModeBHaccretionMass => .f r.QuasarModeBHaccretionMass
  | .TimeOfLastMajorMerger => .f r.TimeOfLastMajorMerger
  | .TimeOfLastMinorMerger => .f r.TimeOfLastMinorMerger
  | .OutflowRate => .f r.OutflowRate
  | .infallMvir => .f r.infallMvir
  | .infallVvir => .f r.infallVvir
  | .infallVmax => .f r.infallVmax

/-- np.fromfile item count semantics on an already-decoded stream: a
non-negative count takes at most that many items (a short read returns
fewer items, without error), and a negative count reads everything that
remains. -/
def npTakeList {α : Type} (count : Int) (l : List α) : List α :=
  if count < 0 then l else l.take count.toNat

/-- The stream that remains after npTakeList. -/
def npDropList {α : Type} (count : Int) (l : List α) : List α :=
  if count < 0 then [] else l.drop count.toNat

/-- ndarray.cumsum with a running accumulator. -/
def cumsumFrom (acc : Int) : List Int → List Int
  | [] => []
  | x :: xs => (acc + x) :: cumsumFrom (acc + x) xs

/-- The slice assignment arr[1:-1] = src of read_header, where src is
tmp[0:-2] (so src.length = arr.length - 2 at the call site): for length
at most 2 the middle slice is empty and arr is unchanged; otherwise the
first and LAST entries of arr are kept and the middle is replaced. -/
def sliceAssignMid (l src : List Int) : List Int :=
  if l.length ≤ 2 then l
  else l.take 1 ++ src ++ l.drop (l.length - 1)

/-- IndexError message of scalar-indexing an empty numpy array at 0. -/
def msgEmptyIndex : String := "index 0 is out of bounds for axis 0 with size 0"

/-- The state of a sageResults instance after read_header: the header
fields and the derived per-tree byte offsets. -/
structure HeaderData where
  totntrees : Int
  totngals : Int
  ngal_per_tree : List Int
  bytes_offset_per_tree : List Int
  rest : List Int
deriving DecidableEq, Repr

/-- sageResults.read_header on the int32 stream at the start of the file:
reads the tree count, the total galaxy count, and one galaxy count per
tree, then derives bytes_offset_per_tree with the shifted cumulative sum
(tmp = sizes.cumsum(); arr[1:-1] = tmp[0:-2]; arr[0] = 0;
arr += 4 + 4 + totntrees*4).  Indexing the empty result of a fromfile on
a too-short stream raises IndexError, exactly as numpy does; no other
validation is performed.  int32 arithmetic is modelled on Int (the header
values at stake stay far below 2^31). -/
def read_header (words : List Int) : Except PyErr HeaderData :=
  match words with
  | [] => .error (.indexError msgEmptyIndex)
  | totntrees :: w1 =>
    match w1 with
    | [] => .error (.indexError msgEmptyIndex)
    | totngals :: w2 =>
      let ngal_per_tree := npTakeList totntrees w2
      let rest := npDropList totntrees w2
      let bytes0 := ngal_per_tree.map (fun n => n * (itemsize : Int))
      let tmp := cumsumFrom 0 bytes0
      let bytes1 := sliceAssignMid bytes0 (tmp.take (tmp.length - 2))
      match bytes1 with
      | [] => .error (.indexError msgEmptyIndex)
      | _ :: btail =>
        let header_size : Int := 4 + 4 + totntrees * 4
        let offsets := ((0 : Int) :: btail).map (fun b => b + header_size)
        .ok ⟨totntrees, totngals, ngal_per_tree, offsets, rest⟩

/-- The state of one open sageResults catalog after its header has been
read: the parsed header data, the ignored_fields list given to the
constructor, and the not-yet-consumed record stream of the sequential
file handle (read_tree reads with np.fromfile from the current position,
so the stream is consumed in tree order). -/
structure CatalogState where
  totntrees : Int
  totngals : Int
  ngal_per_tree : List Int
  bytes_offset_per_tree : List Int
  ignored_fields : List FieldName
  stream : List GalaxyRecord

/-- IndexError message of str.format when a placeholder index is not
covered by the argument tuple. -/
def msgFormatIndex : String := "Replacement index 2 out of range for positional args tuple"

/-- Python str.format restricted to positional placeholders: the first
argument lists the placeholder indices occurring in the template, the
second the positional arguments.  A placeholder index at or past the
number of arguments raises IndexError before any message is produced;
otherwise some interpolation of the arguments results (the template text
itself is irrelevant to the claims and is elided). -/
def pyFormat (placeholders : List Nat) (args : List String) : Except PyErr String :=
  if placeholders.all (fun p => p < args.length) then
    .ok (String.intercalate " " args)
  else .error (.indexError msgFormatIndex)

/-- The placeholder indices of the bounds-violation message template in
read_tree: the template mentions both braces 0 and 2 but format is given
only the two arguments treenum and totntrees. -/
def treeIndexMsgPlaceholders : List Nat := [0, 2]

/-- sageResults.read_tree on a post-header catalog state.  A tree index
outside [0, totntrees) triggers the message-building str.format call,
which itself raises IndexError (placeholder 2 with 2 arguments), so the
intended ValueError with the valid range is never raised.  A zero count
returns None without touching the stream.  Otherwise np.fromfile returns
up to ngal records from the current position: fewer when the stream is
short, silently. -/
def read_tree (s : CatalogState) (treenum : Int) :
    Except PyErr (Option (List GalaxyRecord) × CatalogState) :=
  if treenum < 0 ∨ s.totntrees ≤ treenum then
    match pyFormat treeIndexMsgPlaceholders [toString treenum, toString s.totntrees] with
    | .error e => .error e
    | .ok msg => .error (.valueError msg)
  else
    match s.ngal_per_tree.get? treenum.toNat with
    | none => .error (.indexError msgEmptyIndex)
    | some ngal =>
      if ngal = 0 then .ok (none, s)
      else
        .ok (some (npTakeList ngal s.stream),
             { s with stream := npDropList ngal s.stream })

/-- np.argsort on the SimulationHaloIndex column followed by fancy
indexing of the batch: the records sorted by SimulationHaloIndex
(insertion sort; the key order is all the claims depend on). -/
def insertBySim (r : GalaxyRecord) : List GalaxyRecord → List GalaxyRecord
  | [] => [r]
  | x :: xs =>
    if r.SimulationHaloIndex ≤ x.SimulationHaloIndex then r :: x :: xs
    else x :: insertBySim r xs

/-- The per-tree normalization step of compare_catalogs: sort the batch
by SimulationHaloIndex. -/
def sortBySim : List GalaxyRecord → List GalaxyRecord
  | [] => []
  | x :: xs => insertBySim x (sortBySim xs)

/-- np.allclose over the column of one field in two equal-length batches:
every element pair is close (integer columns go through the very same
tolerance formula: np.allclose never compares exactly). -/
def allcloseField (fld : FieldName) (l1 l2 : List GalaxyRecord) : Bool :=
  (l1.zip l2).all fun p =>
    match getField p.1 fld, getField p.2 fld with
    | .i a, .i b => npIsClose a b
    | .f a, .f b => npIsClose a b
    | .v3 a, .v3 b =>
      npIsClose a.1 b.1 && npIsClose a.2.1 b.2.1 && npIsClose a.2.2 b.2.2
    | _, _ => false

/-- The field loop of compare_catalogs: walk dtype.names in order, skip
the ignored fields, and return the first field whose column fails
np.allclose (the script raises ValueError naming it); none when every
compared field passes. -/
def first_bad_field (ign : List FieldName) (l1 l2 : List GalaxyRecord) :
    List FieldName → Option FieldName
  | [] => none
  | fld :: rest =>
    if fld ∈ ign then first_bad_field ign l1 l2 rest
    else if allcloseField fld l1 l2 then first_bad_field ign l1 l2 rest
    else some fld

/-- The per-tree count loop of compare_catalogs over
zip(g1.ngal_per_tree, g2.ngal_per_tree): true when some zipped pair
differs (the script raises ValueError at the first such tree). -/
def countsMismatch : List (Int × Int) → Bool
  | [] => false
  | (n1, n2) :: rest => if n1 = n2 then countsMismatch rest else true

/-- The ignored-field list the comparator actually uses: the fields of
g1.ignored_fields that are also in g2.ignored_fields. -/
def effective_ignored (g1 g2 : CatalogState) : List FieldName :=
  g1.ignored_fields.filter (fun a => decide (a ∈ g2.ignored_fields))

/-- ValueError message heads of compare_catalogs (the formatted detail
lines appended by the script carry no information the claims need). -/
def msgTrees : String := "Total number of trees must be identical"

/-- ValueError message head for a total galaxy count mismatch. -/
def msgGals : String := "Total number of galaxies must be identical"

/-- ValueError message head for a per-tree galaxy count mismatch. -/
def msgTreeCount : String := "Treenumber should have exactly the same number of galaxies"

/-- ValueError message when exactly one of the two read trees is None. -/
def msgOneEmpty : String := "Error: Exactly one of the trees contains no galaxies."

/-- ValueError message head for a batch shape mismatch. -/
def msgShape : String := "Error: Bug in read routine or corrupted/truncated file"

/-- TypeError message of subscripting None (both trees None slips past
the mismatch test and reaches np.argsort of a None column). -/
def msgNoneSubscript : String := "NoneType object is not subscriptable"

/-- The dtype name string of a field, as interpolated into the field
mismatch ValueError message. -/
def pyName : FieldName → String
  | .SnapNum => "SnapNum"
  | .«Type» => "Type"
  | .GalaxyIndex => "GalaxyIndex"
  | .CentralGalaxyIndex => "CentralGalaxyIndex"
  | .SAGEHaloIndex => "SAGEHaloIndex"
  | .SAGETreeIndex => "SAGETreeIndex"
  | .SimulationHaloIndex => "SimulationHaloIndex"
  | .mergeType => "mergeType"
  | .mergeIntoID => "mergeIntoID"
  | .mergeIntoSnapNum => "mergeIntoSnapNum"
  | .dT => "dT"
  | .Pos => "Pos"
  | .Vel => "Vel"
  | .Spin => "Spin"
  | .Len => "Len"
  | .Mvir => "Mvir"
  | .CentralMvir => "CentralMvir"
  | .Rvir => "Rvir"
  | .Vvir => "Vvir"
  | .Vmax => "Vmax"
  | .VelDisp => "VelDisp"
  | .ColdGas => "ColdGas"
  | .StellarMass => "StellarMass"
  | .BulgeMass => "BulgeMass"
  | .HotGas => "HotGas"
  | .EjectedMass => "EjectedMass"
  | .BlackHoleMass => "BlackHoleMass"
  | .IntraClusterStars => "IntraClusterStars"
  | .MetalsColdGas => "MetalsColdGas"
  | .MetalsStellarMass => "MetalsStellarMass"
  | .MetalsBulgeMass => "MetalsBulgeMass"
  | .MetalsHotGas => "MetalsHotGas"
  | .MetalsEjectedMass => "MetalsEjectedMass"
  | .MetalsIntraClusterStars => "MetalsIntraClusterStars"
  | .SfrDisk => "SfrDisk"
  | .SfrBulge => "SfrBulge"
  | .SfrDiskZ => "SfrDiskZ"
  | .SfrBulgeZ => "SfrBulgeZ"
  | .DiskRadius => "DiskRadius"
  | .Cooling => "Cooling"
  | .Heating => "Heating"
  | .QuasarModeBHaccretionMass => "QuasarModeBHaccretionMass"
  | .TimeOfLastMajorMerger => "TimeOfLastMajorMerger"
  | .TimeOfLastMinorMerger => "TimeOfLastMinorMerger"
  | .OutflowRate => "OutflowRate"
  | .infallMvir => "infallMvir"
  | .infallVvir => "infallVvir"
  | .infallVmax => "infallVmax"

/-- ValueError message head for a field mismatch, naming the field. -/
def msgField (fld : FieldName) : String :=
  "Field " ++ pyName fld ++ " not the same between the two catalogs"

/-- The per-tree loop of compare_catalogs over the tree indices, with
the two sequential reader states threaded through the loop.  Trees whose
g1 count is zero are skipped without any read.  After both reads, the
script tests whether exactly one of the trees is None (the isNone
disagreement is what the Python conjunction of is-None and inequality
amounts to: when both are None the inequality is False, when both are
arrays the is-None guard is False), then sorts both batches by
SimulationHaloIndex, compares shapes, and walks the fields. -/
def compare_trees (ign : List FieldName) :
    List Nat → CatalogState → CatalogState → Except PyErr Unit
  | [], _, _ => .ok ()
  | treenum :: rest, g1, g2 =>
    match g1.ngal_per_tree.get? treenum with
    | none => .error (.indexError msgEmptyIndex)
    | some n1 =>
      if n1 = 0 then compare_trees ign rest g1 g2
      else
        match read_tree g1 (treenum : Int) with
        | .error e => .error e
        | .ok (t1, g1x) =>
          match read_tree g2 (treenum : Int) with
          | .error e => .error e
          | .ok (t2, g2x) =>
            if t1.isNone ≠ t2.isNone then .error (.valueError msgOneEmpty)
            else
              match t1, t2 with
              | some l1, some l2 =>
                let sorted1 := sortBySim l1
                let sorted2 := sortBySim l2
                if sorted1.length ≠ sorted2.length then
                  .error (.valueError msgShape)
                else
                  match first_bad_field ign sorted1 sorted2 dtypeNames with
                  | some fld => .error (.valueError (msgField fld))
                  | none => compare_trees ign rest g1x g2x
              | _, _ => .error (.typeError msgNoneSubscript)

/-- compare_catalogs on two post-header catalog states: the structural
checks (tree count, total galaxy count, zipped per-tree counts) each
raise ValueError on failure, then the per-tree loop runs over
range(g1.totntrees) with the intersection of the two ignored-field
lists.  A run that raises nothing returns None: success is the plain
return, every mismatch is an exception. -/
def compare_catalogs (g1 g2 : CatalogState) : Except PyErr Unit :=
  if g1.totntrees ≠ g2.totntrees then .error (.valueError msgTrees)
  else if g1.totngals ≠ g2.totngals then .error (.valueError msgGals)
  else if countsMismatch (g1.ngal_per_tree.zip g2.ngal_per_tree) then
    .error (.valueError msgTreeCount)
  else
    compare_trees (effective_ignored g1 g2)
      (List.range g1.totntrees.toNat) g1 g2

/-- The empty-file guard of the first pass of read_galaxies in
output/sage-plot/sage-plot.py: a file whose os.path.getsize is zero is
reported and skipped before its header is read.  True means skipped. -/
def sagePlotSkipsEmptyFile (size : Nat) : Bool := size == 0

/-- A concrete galaxy record with every field zero. -/
def baseRecord : GalaxyRecord :=
  ⟨0, 0, 0, 0, 0, 0, 0, 0, 0, 0, 0, (0, 0, 0), (0, 0, 0), (0, 0, 0), 0,
   0, 0, 0, 0, 0, 0, 0, 0, 0, 0, 0, 0, 0, 0, 0, 0, 0, 0, 0, 0, 0, 0, 0,
   0, 0, 0, 0, 0, 0, 0, 0, 0, 0⟩

/-- baseRecord with the integer field Len set to the given value. -/
def recordWithLen (v : Int) : GalaxyRecord := { baseRecord with Len := v }

/-- A one-tree, one-galaxy catalog whose single record is recordWithLen
v, with no ignored fields; offsets as read_header computes them for a
one-tree header (header size 12). -/
def lenCatalog (v : Int) : CatalogState :=
  ⟨1, 1, [1], [12], [], [recordWithLen v]⟩

/-- lenCatalog with a chosen ignored_fields list. -/
def lenCatalogIgn (v : Int) (ign : List FieldName) : CatalogState :=
  { lenCatalog v with ignored_fields := ign }

/-- A one-tree catalog whose single tree has zero galaxies. -/
def zeroCatalog : CatalogState := ⟨1, 0, [0], [12], [], []⟩

/-- A consistent two-tree catalog with one galaxy per tree. -/
def twoTreeCat : CatalogState :=
  ⟨2, 2, [1, 1], [16, 248], [], [baseRecord, baseRecord]⟩

/-- A truncated one-tree catalog: the header declares three galaxies but
only one whole record of data follows. -/
def truncCat : CatalogState := ⟨1, 3, [3], [12], [], [baseRecord]⟩

/-- A structurally consistent catalog state: the declared tree count is
the length of the per-tree count list, the counts are non-negative, the
declared total is their sum, and the data region holds exactly that many
records. -/
def ValidCatalog (c : CatalogState) : Prop :=
  c.totntrees = (c.ngal_per_tree.length : Int) ∧
  (∀ n ∈ c.ngal_per_tree, 0 ≤ n) ∧
  c.totngals = c.ngal_per_tree.sum ∧
  (c.stream.length : Int) = c.ngal_per_tree.sum

instance (c : CatalogState) : Decidable (ValidCatalog c) := by
  unfold ValidCatalog
  infer_instance

deriving instance DecidableEq for Except

set_option maxRecDepth 10000

theorem npAbs_nonneg (q : ℚ) : 0 ≤ npAbs q := by
  unfold npAbs
  by_cases h : q < 0
  · rw [if_pos h]; linarith
  · rw [if_neg h]; exact not_lt.mp h

theorem npAbs_zero : npAbs 0 = 0 := by
  unfold npAbs
  rw [if_neg (lt_irrefl 0)]

theorem npIsClose_self (q : ℚ) : npIsClose q q = true := by
  unfold npIsClose
  apply decide_eq_true
  rw [sub_self, npAbs_zero]
  have h1 : (0 : ℚ) ≤ npRtol * npAbs q :=
    mul_nonneg (by unfold npRtol; norm_num) (npAbs_nonneg q)
  have h2 : (0 : ℚ) < npAtol := by unfold npAtol; norm_num
  linarith

theorem allcloseField_self (fld : FieldName) (l : List GalaxyRecord) :
    allcloseField fld l l = true := by
  unfold allcloseField
  induction l with
  | nil => rfl
  | cons r rs ih =>
    simp only [List.zip_cons_cons, List.all_cons, ih, Bool.and_true]
    cases getField r fld <;> simp [npIsClose_self]

theorem first_bad_field_self (ign : List FieldName) (l : List GalaxyRecord)
    (names : List FieldName) : first_bad_field ign l l names = none := by
  induction names with
  | nil => rfl
  | cons fld rest ih =>
    by_cases hf : fld ∈ ign <;>
      simp [first_bad_field, hf, allcloseField_self, ih]

theorem countsMismatch_self (l : List Int) : countsMismatch (l.zip l) = false := by
  induction l with
  | nil => rfl
  | cons x xs ih =>
    simp only [List.zip_cons_cons, countsMismatch]
    rw [if_pos trivial]
    exact ih

theorem compare_trees_self (ign : List FieldName) (idxs : List Nat) :
    ∀ s : CatalogState,
      (∀ i ∈ idxs, (i : Int) < s.totntrees ∧ i < s.ngal_per_tree.length) →
      compare_trees ign idxs s s = .ok () := by
  induction idxs with
  | nil => intro s _; rfl
  | cons i rest ih =>
    intro s h
    obtain ⟨hlt, hlen⟩ := h i (List.mem_cons_self i rest)
    have hget : s.ngal_per_tree.get? i = some (s.ngal_per_tree.get ⟨i, hlen⟩) :=
      List.get?_eq_get hlen
    have htail : ∀ j ∈ rest, (j : Int) < s.totntrees ∧ j < s.ngal_per_tree.length :=
      fun j hj => h j (List.mem_cons_of_mem i hj)
    simp only [compare_trees, hget]
    by_cases hn : s.ngal_per_tree.get ⟨i, hlen⟩ = 0
    · rw [if_pos hn]
      exact ih s htail
    · rw [if_neg hn]
      have hread : read_tree s (i : Int) =
          .ok (some (npTakeList (s.ngal_per_tree.get ⟨i, hlen⟩) s.stream),
               { s with stream := npDropList (s.ngal_per_tree.get ⟨i, hlen⟩) s.stream }) := by
        unfold read_tree
        rw [if_neg (by omega)]
        simp only [Int.toNat_natCast, hget]
        rw [if_neg hn]
      rw [hread]
      simp only [Option.isNone_some, ne_eq, not_false_eq_true, not_true_eq_false,
        if_false, first_bad_field_self]
      exact ih _ (by simpa using htail)

theorem sliceAssignMid_cons (x : Int) (xs src : List Int) :
    sliceAssignMid (x :: xs) src =
      x :: (if xs.length ≤ 1 then xs else src ++ (x :: xs).drop xs.length) := by
  unfold sliceAssignMid
  by_cases h : (x :: xs).length ≤ 2
  · rw [if_pos h, if_pos (by rw [List.length_cons] at h; omega)]
  · rw [if_neg h, if_neg (by rw [List.length_cons] at h; omega)]
    simp [List.length_cons]

/-- Claim C1: read_header on the header int32s [2, 3, 3, 0] (two trees,
three galaxies, per-tree counts [3, 0]).  The claimed offset table is
[16, 16 + 3*record_size] = [16, 712] (record_size = 232), but the code
computes [16, 16]: the slice assignment arr[1:-1] = tmp[0:-2] never
overwrites the LAST entry, which therefore keeps header_size plus the
last tree's own size instead of the end of the previous tree. -/
theorem read_header_last_offset_bug :
    read_header [2, 3, 3, 0] = .ok ⟨2, 3, [3, 0], [16, 16], []⟩ ∧
    (itemsize : Int) = 232 ∧ 16 + 3 * (itemsize : Int) = 712 ∧ (16 : Int) ≠ 712 := by
  refine ⟨by decide, by decide, by decide, by decide⟩

/-- Claim C7 (counterexample): read_header on a zero-byte file (an empty
int32 stream) surfaces a generic IndexError from scalar-indexing the
empty np.fromfile result.  No distinct EmptyFile precondition failure
exists in sagediff.py, refuting the claim that the condition is never
surfaced as a generic parse error. -/
theorem read_header_empty_file_index_error :
    read_header ([] : List Int) = .error (.indexError msgEmptyIndex) := rfl

/-- Claim C7 (amended): the sagediff reader performs no empty-file check
and fails with the generic IndexError of indexing an empty fromfile
result; the size-zero guard exists only in sage-plot.py's read_galaxies,
which skips a zero-size file before reading it and processes files of
nonzero size. -/
theorem empty_file_handling :
    read_header ([] : List Int) = .error (.indexError msgEmptyIndex) ∧
    sagePlotSkipsEmptyFile 0 = true ∧ sagePlotSkipsEmptyFile 232 = false :=
  ⟨rfl, rfl, rfl⟩

/-- Claim C9: read_tree on a two-tree catalog.  For the out-of-range
indices -1 and 2 the bounds check fires and no read happens, but the
message-building str.format call itself raises IndexError (the template
uses placeholder 2 while only two arguments are passed), so the claimed
ValueError whose message states the valid range is never produced; for
the in-range index 0 no such failure occurs and the tree is returned. -/
theorem read_tree_bounds_format_crash :
    read_tree twoTreeCat (-1) = .error (.indexError msgFormatIndex) ∧
    read_tree twoTreeCat 2 = .error (.indexError msgFormatIndex) ∧
    read_tree twoTreeCat 0 =
      .ok (some [baseRecord], { twoTreeCat with stream := [baseRecord] }) :=
  ⟨rfl, rfl, rfl⟩

/-- Claim C6 (counterexample): read_header accepts the header [1, 5, 3],
whose single per-tree count 3 does not sum to the declared total 5, and
returns it unchallenged: no CorruptHeader error exists and no sum check
is performed. -/
theorem read_header_sum_mismatch_succeeds :
    read_header [1, 5, 3] = .ok ⟨1, 5, [3], [12], []⟩ ∧ List.sum [(3 : Int)] ≠ 5 :=
  ⟨by decide, by decide⟩

/-- Claim C6 (amended): read_header establishes no relation between the
per-tree counts and the declared total: for every tree count t matching
the length of the count list it succeeds and stores the counts verbatim,
whatever the total n is. -/
theorem read_header_no_sum_check (t n c : Int) (cs : List Int)
    (h1 : 0 ≤ t) (h2 : t.toNat = (c :: cs).length) :
    (read_header (t :: n :: c :: cs)).toOption.map HeaderData.ngal_per_tree =
      some (c :: cs) := by
  simp only [read_header, npTakeList, npDropList]
  rw [if_neg (show ¬ t < 0 by omega), if_neg (show ¬ t < 0 by omega), h2,
    List.take_length, List.drop_length]
  simp only [List.map_cons]
  rw [sliceAssignMid_cons]
  rfl

/-- Claim C6 (witness): the amended theorem applied to the header
[2, 7, 1, 2], whose counts [1, 2] sum to 3 and not to the declared 7. -/
theorem read_header_no_sum_check_witness :
    (read_header [2, 7, 1, 2]).toOption.map HeaderData.ngal_per_tree = some [1, 2] ∧
    List.sum [(1 : Int), 2] ≠ 7 :=
  ⟨read_header_no_sum_check 2 7 1 [2] (by decide) (by decide), by decide⟩

/-- Claim C3 (counterexample): two valid catalogs that differ (one tree
against two trees) make compare_catalogs raise ValueError -- the error
side of the result -- rather than return a structured comparison value:
mismatches are exceptions, not data. -/
theorem compare_mismatch_raises_valueerror_concrete :
    ValidCatalog (lenCatalog 1) ∧ ValidCatalog twoTreeCat ∧
    compare_catalogs (lenCatalog 1) twoTreeCat = .error (.valueError msgTrees) :=
  ⟨by decide, by decide, by decide⟩

/-- Claim C3 (amended): every tree-count mismatch aborts compare_catalogs
by raising ValueError; only a fully equal comparison returns normally
(with None).  There is no ComparisonResult value carrying mismatch data. -/
theorem compare_tree_count_mismatch_raises (g1 g2 : CatalogState)
    (h : g1.totntrees ≠ g2.totntrees) :
    compare_catalogs g1 g2 = .error (.valueError msgTrees) := by
  unfold compare_catalogs
  rw [if_pos h]

/-- Claim C3 (witness): the amended theorem applied to concrete valid
catalogs with one and two trees. -/
theorem compare_tree_count_mismatch_raises_witness :
    (lenCatalog 0).totntrees ≠ twoTreeCat.totntrees ∧
    compare_catalogs (lenCatalog 0) twoTreeCat = .error (.valueError msgTrees) :=
  ⟨by decide, compare_tree_count_mismatch_raises (lenCatalog 0) twoTreeCat (by decide)⟩

/-- Claim C4 (counterexample): on a catalog whose header declares three
galaxies in tree 0 while only one whole record remains in the file,
read_tree returns a silently short batch of length one with no error:
no TruncatedFile failure exists. -/
theorem read_tree_truncated_short_batch_concrete :
    read_tree truncCat 0 = .ok (some [baseRecord], { truncCat with stream := [] }) ∧
    truncCat.ngal_per_tree.get? 0 = some 3 ∧
    ([baseRecord] : List GalaxyRecord).length = 1 :=
  ⟨rfl, rfl, rfl⟩

/-- Claim C4 (amended): for an in-range tree with a positive declared
count, read_tree returns whatever complete records remain at the current
position -- a batch of length min(declared, available) -- without any
error; a truncated tree is only caught downstream by the batch-shape
check of compare_catalogs. -/
theorem read_tree_short_read_returns_min (s : CatalogState) (i n : Int)
    (h0 : 0 ≤ i) (h1 : i < s.totntrees)
    (h2 : s.ngal_per_tree.get? i.toNat = some n) (h3 : 0 < n) :
    read_tree s i = .ok (some (s.stream.take n.toNat),
      { s with stream := s.stream.drop n.toNat }) ∧
    (s.stream.take n.toNat).length = min n.toNat s.stream.length := by
  constructor
  · unfold read_tree
    rw [if_neg (show ¬ (i < 0 ∨ s.totntrees ≤ i) by omega)]
    simp only [h2]
    rw [if_neg (show ¬ n = 0 by omega)]
    unfold npTakeList npDropList
    rw [if_neg (show ¬ n < 0 by omega), if_neg (show ¬ n < 0 by omega)]
  · exact List.length_take n.toNat s.stream

/-- Claim C4 (witness): the amended theorem applied to the truncated
catalog: three declared, one available, batch length min 3 1 = 1. -/
theorem read_tree_short_read_returns_min_witness :
    read_tree truncCat 0 = .ok (some [baseRecord], { truncCat with stream := ([] : List GalaxyRecord) }) ∧
    ([baseRecord] : List GalaxyRecord).length = 1 := by
  simpa using read_tree_short_read_returns_min truncCat 0 3 (by decide) (by decide) (by decide) (by decide)

/-- Claim C5 (counterexample): on a catalog whose tree 0 has a declared
count of zero, read_tree returns None and leaves the stream untouched;
it does not return an empty zero-length batch -- None is not a batch. -/
theorem read_tree_zero_count_returns_none_concrete :
    read_tree zeroCatalog 0 = .ok (none, zeroCatalog) ∧
    read_tree zeroCatalog 0 ≠ .ok (some [], zeroCatalog) := by
  constructor
  · rfl
  · have h0 : read_tree zeroCatalog 0 = .ok (none, zeroCatalog) := rfl
    rw [h0]
    intro hcontra
    simp at hcontra

/-- Claim C5 (amended): for every in-range tree index, read_tree returns
None (performing no read, the state unchanged) when the declared count is
zero, and otherwise a batch of exactly the records taken from the current
position (whose length is the declared count whenever enough data
remains). -/
theorem read_tree_in_range_result (s : CatalogState) (i n : Int)
    (h0 : 0 ≤ i) (h1 : i < s.totntrees)
    (h2 : s.ngal_per_tree.get? i.toNat = some n) (h4 : 0 ≤ n) :
    read_tree s i = .ok (if n = 0 then (none, s)
      else (some (s.stream.take n.toNat), { s with stream := s.stream.drop n.toNat })) := by
  unfold read_tree
  rw [if_neg (show ¬ (i < 0 ∨ s.totntrees ≤ i) by omega)]
  simp only [h2]
  by_cases hn : n = 0
  · rw [if_pos hn, if_pos hn]
  · rw [if_neg hn, if_neg hn]
    unfold npTakeList npDropList
    rw [if_neg (show ¬ n < 0 by omega), if_neg (show ¬ n < 0 by omega)]

/-- Claim C5 (witness): the amended theorem applied to the zero-count
catalog, where the result is None with the state unchanged. -/
theorem read_tree_in_range_result_witness :
    read_tree zeroCatalog 0 = .ok (none, zeroCatalog) :=
  read_tree_in_range_result zeroCatalog 0 0 (by decide) (by decide) (by decide) (by decide)

/-- Claim C8: comparator reflexivity.  Comparing a structurally
consistent catalog against itself with no ignored fields raises nothing
and returns normally: every structural check trivially passes and every
field column is np.allclose to itself (the tolerance bound
atol + rtol*absolute(b) is non-negative). -/
theorem compare_catalogs_self_equal (c : CatalogState) (hv : ValidCatalog c)
    (_hig : c.ignored_fields = []) :
    compare_catalogs c c = .ok () := by
  unfold compare_catalogs
  rw [if_neg (fun hcon => hcon rfl), if_neg (fun hcon => hcon rfl)]
  simp only [countsMismatch_self, Bool.false_eq_true, if_false]
  apply compare_trees_self
  intro i hi
  have hi2 := List.mem_range.mp hi
  have hv1 := hv.1
  constructor
  · omega
  · omega

/-- Claim C8 (witness): reflexivity applied to a concrete valid one-tree
catalog with no exclusions. -/
theorem compare_catalogs_self_equal_witness :
    ValidCatalog (lenCatalog 5) ∧
    compare_catalogs (lenCatalog 5) (lenCatalog 5) = .ok () :=
  ⟨by decide, compare_catalogs_self_equal (lenCatalog 5) (by decide) rfl⟩

/-- Claim C2 (counterexample): two valid catalogs identical except that
the non-excluded integer field Len differs by the nonzero amount 1
(1000000 against 1000001) are NOT reported as a mismatch: np.allclose is
applied to integer columns too, and the difference of 1 is within
atol + rtol*1000001, so compare_catalogs returns normally. -/
theorem compare_integer_field_within_tolerance_passes :
    ValidCatalog (lenCatalog 1000000) ∧ ValidCatalog (lenCatalog 1000001) ∧
    (1000000 : Int) ≠ 1000001 ∧
    FieldName.Len ∉ (lenCatalog 1000000).ignored_fields ∧
    compare_catalogs (lenCatalog 1000000) (lenCatalog 1000001) = .ok () := by
  refine ⟨by decide, by decide, by decide, by decide, ?_⟩
  norm_num [compare_catalogs, compare_trees, read_tree, effective_ignored, countsMismatch,
    first_bad_field, allcloseField, sortBySim, insertBySim, getField, npIsClose, npAbs,
    npTakeList, npDropList, lenCatalog, recordWithLen, baseRecord, dtypeNames,
    npRtol, npAtol, List.range_succ]

theorem sortBySim_single (r : GalaxyRecord) : sortBySim [r] = [r] := by
  simp only [sortBySim, insertBySim]

theorem allcloseField_lenCat (a b : Int) (fld : FieldName) (h : fld ≠ .Len) :
    allcloseField fld [recordWithLen a] [recordWithLen b] = true := by
  cases fld <;>
    first
    | exact absurd rfl h
    | simp [allcloseField, getField, recordWithLen, baseRecord, npIsClose_self]

theorem allcloseField_lenCat_len (a b : Int) :
    allcloseField .Len [recordWithLen a] [recordWithLen b] = npIsClose (a : ℚ) (b : ℚ) := by
  simp [allcloseField, getField, recordWithLen, baseRecord]

theorem first_bad_field_lenCat_nil (a b : Int) :
    first_bad_field [] [recordWithLen a] [recordWithLen b] dtypeNames =
      if npIsClose (a : ℚ) (b : ℚ) = true then none else some FieldName.Len := by
  simp [dtypeNames, first_bad_field, allcloseField_lenCat, allcloseField_lenCat_len]

theorem first_bad_field_lenCat_lenskip (a b : Int) :
    first_bad_field [FieldName.Len] [recordWithLen a] [recordWithLen b] dtypeNames = none := by
  simp [dtypeNames, first_bad_field, allcloseField_lenCat, allcloseField_lenCat_len]

theorem compare_trees_single (ign : List FieldName) (g1 g2 : CatalogState)
    (r1 r2 : GalaxyRecord)
    (hT1 : 0 < g1.totntrees) (hT2 : 0 < g2.totntrees)
    (hg1 : g1.ngal_per_tree.get? 0 = some 1) (hg2 : g2.ngal_per_tree.get? 0 = some 1)
    (hs1 : g1.stream = [r1]) (hs2 : g2.stream = [r2]) :
    compare_trees ign [0] g1 g2 =
      match first_bad_field ign (sortBySim [r1]) (sortBySim [r2]) dtypeNames with
      | some fld => .error (.valueError (msgField fld))
      | none => .ok () := by
  have hread1 : read_tree g1 ((0 : Nat) : Int) = .ok (some [r1], { g1 with stream := [] }) := by
    unfold read_tree
    rw [if_neg (by omega)]
    simp only [Int.toNat_natCast, hg1]
    rw [if_neg (show (1 : Int) ≠ 0 by decide), hs1]
    rfl
  have hread2 : read_tree g2 ((0 : Nat) : Int) = .ok (some [r2], { g2 with stream := [] }) := by
    unfold read_tree
    rw [if_neg (by omega)]
    simp only [Int.toNat_natCast, hg2]
    rw [if_neg (show (1 : Int) ≠ 0 by decide), hs2]
    rfl
  simp only [compare_trees, hg1]
  rw [if_neg (show (1 : Int) ≠ 0 by decide)]
  simp only [hread1, hread2, Option.isNone_some, ne_eq, not_true_eq_false, if_false]
  rw [if_neg (fun hc => hc rfl)]

/-- Claim C2 (amended): every non-excluded field, integer fields
included, is compared with the np.allclose relative/absolute tolerance:
on two otherwise-identical one-record catalogs differing only in the
integer field Len, compare_catalogs reports a mismatch exactly when the
values fail absolute(a-b) <= atol + rtol*absolute(b); integer differences
inside that bound are not reported. -/
theorem compare_integer_field_allclose_tolerance (a b : Int) :
    compare_catalogs (lenCatalog a) (lenCatalog b) =
      if npIsClose (a : ℚ) (b : ℚ) then .ok ()
      else .error (.valueError (msgField .Len)) := by
  unfold compare_catalogs
  rw [if_neg (fun hc => hc rfl), if_neg (fun hc => hc rfl)]
  rw [show countsMismatch ((lenCatalog a).ngal_per_tree.zip
        (lenCatalog b).ngal_per_tree) = false from rfl]
  rw [if_neg Bool.false_ne_true]
  rw [show effective_ignored (lenCatalog a) (lenCatalog b) = [] from rfl]
  rw [show List.range (lenCatalog a).totntrees.toNat = [0] from rfl]
  rw [compare_trees_single [] (lenCatalog a) (lenCatalog b)
        (recordWithLen a) (recordWithLen b) (by norm_num [lenCatalog]) (by norm_num [lenCatalog])
        rfl rfl rfl rfl]
  rw [sortBySim_single, sortBySim_single, first_bad_field_lenCat_nil]
  by_cases h : npIsClose (a : ℚ) (b : ℚ) = true
  · rw [if_pos h, if_pos h]
  · rw [if_neg h, if_neg h]

/-- Claim C2 (witness): the amended theorem applied at equal Len values
7 and 7, where np.allclose holds reflexively, so the comparison passes. -/
theorem compare_integer_field_allclose_tolerance_witness :
    compare_catalogs (lenCatalog 7) (lenCatalog 7) = .ok () := by
  have h := compare_integer_field_allclose_tolerance 7 7
  rwa [if_pos (npIsClose_self ((7 : Int) : ℚ))] at h

theorem npIsClose_0_10 : npIsClose (0 : ℚ) (10 : ℚ) = false := by
  unfold npIsClose npAbs npAtol npRtol
  norm_num

/-- Claim C10: the comparator skips exactly the intersection of the two
catalogs' ignored-field lists.  First conjunct: membership in the
effective list is membership in both lists.  Second: a field excluded by
only one catalog (Len, excluded only by the first) is still compared, so
a beyond-tolerance difference in it (0 against 10) is reported as a
mismatch naming the field.  Third: the same difference is skipped when
both catalogs exclude the field. -/
theorem effective_ignored_intersection_behavior :
    (∀ (g1 g2 : CatalogState) (f : FieldName),
        f ∈ effective_ignored g1 g2 ↔ f ∈ g1.ignored_fields ∧ f ∈ g2.ignored_fields) ∧
    compare_catalogs (lenCatalogIgn 0 [.Len]) (lenCatalogIgn 10 []) =
      .error (.valueError (msgField .Len)) ∧
    compare_catalogs (lenCatalogIgn 0 [.Len]) (lenCatalogIgn 10 [.Len]) = .ok () := by
  refine ⟨?_, ?_, ?_⟩
  · intro g1 g2 f
    simp [effective_ignored, List.mem_filter]
  · simp [compare_catalogs, compare_trees, read_tree, effective_ignored, countsMismatch,
      npTakeList, npDropList, lenCatalog, lenCatalogIgn, List.range_succ, sortBySim_single,
      first_bad_field_lenCat_nil, npIsClose_0_10]
  · simp [compare_catalogs, compare_trees, read_tree, effective_ignored, countsMismatch,
      npTakeList, npDropList, lenCatalog, lenCatalogIgn, List.range_succ, sortBySim_single,
      first_bad_field_lenCat_lenskip]


/-- Claim C10 (witness): the third conjunct of the intersection theorem
at its concrete catalogs: a field excluded by both sides is skipped. -/
theorem effective_ignored_intersection_behavior_witness :
    compare_catalogs (lenCatalogIgn 0 [FieldName.Len])
      (lenCatalogIgn 10 [FieldName.Len]) = .ok () :=
  effective_ignored_intersection_behavior.2.2
